import Mathlib

/-!
Shallow embedding of `src/cmd/cmd.go` of adarien/youtube_playlist_items.

The program has two stateful pieces: the OAuth2 token acquisition and
caching logic (`getToken`, `getTokenFromWeb`, `getTokenFromFile`,
`saveToken`), and the paginated playlist-item enumeration
(`getChannelsLists`, `getPlaylistsInfo`, `getListsID`, `getItemInfo`,
`getListItems`, `PostProduct`), wired together by `Run`.

External effects (HTTP calls, console reads, file reads and writes, SQL
inserts) are modelled as oracle functions returning `Except String`,
mirroring Go's `(value, error)` returns; the traces of requests issued
and records handed to the sink are made explicit so that the
externally-observable behaviour the spec talks about can be stated.
The unbounded Go `for {}` paging loop is modelled with an explicit fuel
parameter; fuel exhaustion is a distinct outcome (`spin`) standing for
the loop still running, never confused with normal termination.
-/

namespace YPI

/-! ## Token data model and JSON codec

`oauth2.Token` as serialized by `encoding/json`: an object with fields
`access_token`, `token_type`, `refresh_token`, `expiry`.  JSON is
modelled at the object level (field-name / field-value pairs), which is
the level at which the round-trip property of the spec lives. -/

structure OAuthToken where
  accessToken : String
  tokenType : String
  refreshToken : String
  expiry : String
  deriving Repr, DecidableEq

inductive Json where
  | str (s : String)
  | obj (fields : List (String × Json))
  deriving Repr

/-- Encoding step of `saveToken` (cmd.go line 130): the object written
to the cache file. -/
def encodeToken (t : OAuthToken) : Json :=
  Json.obj [("access_token", Json.str t.accessToken),
            ("token_type", Json.str t.tokenType),
            ("refresh_token", Json.str t.refreshToken),
            ("expiry", Json.str t.expiry)]

def getStrField (fields : List (String × Json)) (key : String) : Except String String :=
  match fields.lookup key with
  | some (Json.str s) => Except.ok s
  | _ => Except.error ("missing or non-string field: " ++ key)

/-- Decoding step of `getTokenFromFile` (cmd.go line 105): decoding a
token object read back from the cache file. -/
def decodeToken (j : Json) : Except String OAuthToken :=
  match j with
  | Json.str _ => Except.error "not a JSON object"
  | Json.obj fields =>
    match getStrField fields "access_token", getStrField fields "token_type",
          getStrField fields "refresh_token", getStrField fields "expiry" with
    | Except.ok a, Except.ok ty, Except.ok r, Except.ok e =>
        Except.ok (OAuthToken.mk a ty r e)
    | Except.error e, _, _, _ => Except.error e
    | _, Except.error e, _, _ => Except.error e
    | _, _, Except.error e, _ => Except.error e
    | _, _, _, Except.error e => Except.error e

/-! ## getToken (cmd.go lines 26-46)

Effects are oracles: `pathR` is the outcome of `getPathTokenCacheFile`,
`readCache file` the outcome of `getTokenFromFile(file)`, `web` the
outcome of `getTokenFromWeb(config)`, `save file token` the outcome of
`saveToken(file, token)`.  A `TokenTrace` counts how many times each
effect ran, so "exactly once" and "never loops" are statable. -/

structure TokenTrace where
  cacheReads : Nat
  webAuths : Nat
  saves : Nat
  deriving Repr, DecidableEq

/-- Model of `getTokenFromWeb` (cmd.go lines 50-68): print the auth URL, scan an
authorization code from the operator (`scan`), exchange it
(`exchange`). -/
def getTokenFromWeb (scan : Except String String)
    (exchange : String → Except String OAuthToken) : Except String OAuthToken :=
  match scan with
  | Except.error e => Except.error ("unable to read authorization code: " ++ e)
  | Except.ok code =>
    match exchange code with
    | Except.error e => Except.error ("unable to retrieve token from web: " ++ e)
    | Except.ok token => Except.ok token

/-- Model of `getToken` (cmd.go lines 26-46): try the cache file; on any
read/decode failure fall through to the web path, then persist the
obtained token before returning it. -/
def getToken (pathR : Except String String)
    (readCache : String → Except String OAuthToken)
    (web : Except String OAuthToken)
    (save : String → OAuthToken → Except String Unit) :
    TokenTrace × Except String OAuthToken :=
  match pathR with
  | Except.error e =>
      (TokenTrace.mk 0 0 0,
       Except.error ("unable to get path to cached credential file: " ++ e))
  | Except.ok cacheFile =>
    match readCache cacheFile with
    | Except.ok token => (TokenTrace.mk 1 0 0, Except.ok token)
    | Except.error _ =>
      match web with
      | Except.error e => (TokenTrace.mk 1 1 0, Except.error e)
      | Except.ok token =>
        match save cacheFile token with
        | Except.error e => (TokenTrace.mk 1 1 1, Except.error e)
        | Except.ok _ => (TokenTrace.mk 1 1 1, Except.ok token)

/-! ## Enumerator data model

Shapes of the YouTube API values the code reads, restricted to the
fields the code touches. -/

structure Channel where
  id : String
  deriving Repr, DecidableEq

structure ChannelListResponse where
  items : List Channel
  deriving Repr, DecidableEq

structure Playlist where
  id : String
  title : String
  itemCount : Int
  deriving Repr, DecidableEq

structure PlaylistListResponse where
  items : List Playlist
  deriving Repr, DecidableEq

/-- One playlist item as read by `getItemInfo`: the `Snippet` fields it
touches, with `ResourceId.VideoId` flattened in. -/
structure PlaylistItem where
  title : String
  videoId : String
  position : Int
  publishedAt : String
  videoOwnerChannelTitle : String
  videoOwnerChannelId : String
  deriving Repr, DecidableEq

structure PlaylistItemListResponse where
  items : List PlaylistItem
  nextPageToken : String
  deriving Repr, DecidableEq

/-- Structure `playlistMeta` (cmd.go lines 171-175). -/
structure playlistMeta where
  ID : String
  Title : String
  Count : Int
  deriving Repr, DecidableEq

/-- Structure `TrackInfo` (cmd.go lines 198-208).  The field `Created` is never assigned by
the code (it stays Go's zero `time.Time`), modelled as the empty
string. -/
structure TrackInfo where
  PlaylistTitle : String
  VideoID : String
  TrackTitle : String
  PublishedAt : String
  VideoOwnerChannelTitle : String
  VideoOwnerChannelId : String
  PlaylistID : String
  Position : Int
  Created : String
  deriving Repr, DecidableEq

/-! ## Requests issued over the wire -/

/-- The channel lookup call built by `getChannelsLists`:
`service.Channels.List(part).ForUsername(username)`. -/
structure ChannelsReq where
  parts : List String
  forUsername : String
  deriving Repr, DecidableEq

/-- The playlists call built by `getPlaylistsInfo`:
`service.Playlists.List(part)`, with `ChannelId` set only when the
argument is non-empty, and `MaxResults(25)`. -/
structure PlaylistsReq where
  parts : List String
  channelId : Option String
  maxResults : Nat
  deriving Repr, DecidableEq

/-- One playlist-items page call built inside `getListItems`:
`service.PlaylistItems.List(["snippet"]).PlaylistId(meta.ID).MaxResults(50).PageToken(nextPageToken)`. -/
structure FetchReq where
  playlistId : String
  maxResults : Nat
  pageToken : String
  deriving Repr, DecidableEq

/-! ## getChannelsLists, getPlaylistsInfo, getListsID -/

/-- Model of `getChannelsLists` (cmd.go lines 156-169): one channels call; a
transport error is wrapped; a response with zero items is rejected as
an incorrect username. -/
def getChannelsLists (doCall : ChannelsReq → Except String ChannelListResponse)
    (part : List String) (username : String) : Except String ChannelListResponse :=
  match doCall (ChannelsReq.mk part username) with
  | Except.error e => Except.error ("channel not call: " ++ e)
  | Except.ok response =>
      if response.items.length = 0 then Except.error "incorrect userName"
      else Except.ok response

/-- The request `getPlaylistsInfo` builds (cmd.go lines 141-146). -/
def playlistsRequest (channelId : String) : PlaylistsReq :=
  PlaylistsReq.mk ["snippet", "contentDetails"]
    (if channelId ≠ "" then some channelId else none) 25

/-- Model of `getPlaylistsInfo` (cmd.go lines 140-154): a single playlists call
with `MaxResults(25)`; no pagination of the playlist list. -/
def getPlaylistsInfo (doCall : PlaylistsReq → Except String PlaylistListResponse)
    (channelId : String) : Except String PlaylistListResponse :=
  match doCall (playlistsRequest channelId) with
  | Except.error e => Except.error ("getPlaylistsInfo not call: " ++ e)
  | Except.ok response => Except.ok response

/-- Model of `getListsID` (cmd.go lines 177-196): reads `response.Items[0].Id`
unguarded — `none` models the index-out-of-range panic Go would raise on
an empty item list — then keeps every playlist not titled "Favorites",
in response order. -/
def getListsID (doCall : PlaylistsReq → Except String PlaylistListResponse)
    (response : ChannelListResponse) : Option (Except String (List playlistMeta)) :=
  match response.items.head? with
  | none => none
  | some ch =>
    some (match getPlaylistsInfo doCall ch.id with
      | Except.error e => Except.error e
      | Except.ok response2 =>
          Except.ok ((response2.items.filter (fun playlist => playlist.title ≠ "Favorites")).map
            (fun playlist => playlistMeta.mk playlist.id playlist.title playlist.itemCount)))

/-! ## PostProduct, getItemInfo, getListItems -/

/-- Model of `PostProduct` (cmd.go lines 402-408): run the per-record DB insert
(`insert` models `InsertProductDB`) and wrap its error with a
contextual prefix. -/
def PostProduct (insert : TrackInfo → Except String Unit) (ti : TrackInfo) :
    Except String Unit :=
  match insert ti with
  | Except.error e => Except.error (" - - - unable to write to DB - - - : " ++ e)
  | Except.ok _ => Except.ok ()

/-- The `TrackInfo` built for one playlist item in the loop body of
`getItemInfo` (cmd.go lines 212-220). -/
def mkTrack (meta : playlistMeta) (playlistItem : PlaylistItem) : TrackInfo :=
  TrackInfo.mk meta.Title playlistItem.videoId playlistItem.title
    playlistItem.publishedAt playlistItem.videoOwnerChannelTitle
    playlistItem.videoOwnerChannelId meta.ID playlistItem.position ""

/-- Model of `getItemInfo` (cmd.go lines 210-231): for each item of the page, build
a `TrackInfo` and hand it to `conn.PostProduct`; an error from
`PostProduct` is printed (`fmt.Println(err)`) and the loop continues —
the function has no error return.  Result: the records handed to the
sink in order, and the printed error messages in order. -/
def getItemInfo (insert : TrackInfo → Except String Unit)
    (playlistResponse : PlaylistItemListResponse) (meta : playlistMeta) :
    List TrackInfo × List String :=
  playlistResponse.items.foldl
    (fun acc playlistItem =>
      let oi := mkTrack meta playlistItem
      match PostProduct insert oi with
      | Except.error e => (acc.1 ++ [oi], acc.2 ++ [e])
      | Except.ok _ => (acc.1 ++ [oi], acc.2))
    ([], [])

/-- Observable trace of a (partial) run of `getListItems`: page requests
issued in order, records handed to the sink in order, sink error
messages printed in order. -/
structure PageTrace where
  reqs : List FetchReq
  posted : List TrackInfo
  printed : List String
  deriving Repr, DecidableEq

def PageTrace.append (t u : PageTrace) : PageTrace :=
  PageTrace.mk (t.reqs ++ u.reqs) (t.posted ++ u.posted) (t.printed ++ u.printed)

/-- Outcome of one playlist's inner `for {}` loop: `done token` when the
loop broke (carrying the value the shared `nextPageToken` variable holds
at that point), `failed` when a page fetch errored and `getListItems`
returns, `spin token` when the fuel ran out (the loop is still
running). -/
inductive PageOutcome where
  | done (token : String)
  | failed (msg : String)
  | spin (token : String)
  deriving Repr, DecidableEq

/-- The inner `for {}` loop of `getListItems` (cmd.go lines 239-256) for
one `meta`, entered with the shared `nextPageToken` variable holding
`token`. -/
def runPages (fetch : FetchReq → Except String PlaylistItemListResponse)
    (insert : TrackInfo → Except String Unit) (meta : playlistMeta) :
    String → Nat → PageTrace × PageOutcome
  | token, 0 => (PageTrace.mk [] [] [], PageOutcome.spin token)
  | token, fuel + 1 =>
    let req := FetchReq.mk meta.ID 50 token
    match fetch req with
    | Except.error e =>
        (PageTrace.mk [req] [] [],
         PageOutcome.failed ("error fetching playlist items: " ++ e))
    | Except.ok playlistResponse =>
        let posts := getItemInfo insert playlistResponse meta
        let tr := PageTrace.mk [req] posts.1 posts.2
        if playlistResponse.nextPageToken = "" then
          (tr, PageOutcome.done playlistResponse.nextPageToken)
        else
          let rest := runPages fetch insert meta playlistResponse.nextPageToken fuel
          (tr.append rest.1, rest.2)

/-- Outcome of `getListItems` as a whole. -/
inductive RunOutcome where
  | ok
  | err (msg : String)
  | spin
  deriving Repr, DecidableEq

/-- The outer loop of `getListItems` (cmd.go lines 237-258): playlists in
order, threading the single shared `nextPageToken` variable from one
playlist's loop into the next. -/
def getListItemsGo (fetch : FetchReq → Except String PlaylistItemListResponse)
    (insert : TrackInfo → Except String Unit) (fuel : Nat) :
    List playlistMeta → String → PageTrace × RunOutcome
  | [], _ => (PageTrace.mk [] [] [], RunOutcome.ok)
  | meta :: rest, token =>
    match runPages fetch insert meta token fuel with
    | (tr, PageOutcome.done token2) =>
        let r := getListItemsGo fetch insert fuel rest token2
        (tr.append r.1, r.2)
    | (tr, PageOutcome.failed e) => (tr, RunOutcome.err e)
    | (tr, PageOutcome.spin _) => (tr, RunOutcome.spin)

/-- Model of `getListItems` (cmd.go lines 233-261): `nextPageToken` is declared
once, initialized to `""`, and shared across all playlists. -/
def getListItems (fetch : FetchReq → Except String PlaylistItemListResponse)
    (insert : TrackInfo → Except String Unit) (playlistMeta : List playlistMeta)
    (fuel : Nat) : PageTrace × RunOutcome :=
  getListItemsGo fetch insert fuel playlistMeta ""

/-! ## Run (cmd.go lines 291-337), from the channel lookup on

The stages before the channel lookup (.env read, credential file,
config parse, token acquisition, service construction) return opaque
values or abort with their own wrapped errors; `RunCore` models the
enumeration pipeline those stages feed, with every effect an oracle and
call counts recorded. -/

structure RunTrace where
  channelCalls : Nat
  playlistCalls : Nat
  itemReqs : List FetchReq
  posted : List TrackInfo
  deriving Repr, DecidableEq

inductive RunRes where
  | ok
  | err (msg : String)
  | panicked
  | diverged
  deriving Repr, DecidableEq

structure Api where
  channels : ChannelsReq → Except String ChannelListResponse
  playlists : PlaylistsReq → Except String PlaylistListResponse
  items : FetchReq → Except String PlaylistItemListResponse
  insert : TrackInfo → Except String Unit

def RunCore (api : Api) (userName : String) (fuel : Nat) : RunTrace × RunRes :=
  match getChannelsLists api.channels ["snippet", "contentDetails"] userName with
  | Except.error e =>
      (RunTrace.mk 1 0 [] [],
       RunRes.err (" - - - unable to get channel list - - - : " ++ e))
  | Except.ok resp =>
    match getListsID api.playlists resp with
    | none => (RunTrace.mk 1 0 [] [], RunRes.panicked)
    | some (Except.error e) =>
        (RunTrace.mk 1 1 [] [],
         RunRes.err (" - - - unable to get playlists ID - - - : " ++ e))
    | some (Except.ok meta) =>
      let r := getListItems api.items api.insert meta fuel
      (RunTrace.mk 1 1 r.1.reqs r.1.posted,
       match r.2 with
       | RunOutcome.ok => RunRes.ok
       | RunOutcome.err e =>
           RunRes.err (" - - - unable to get playlists Items - - - : " ++ e)
       | RunOutcome.spin => RunRes.diverged)

/-! ## Theorems -/

/-- C8: for every Token written through the encoder of `saveToken` and read
back through the decoder of `getTokenFromFile`, the decoded Token equals the original:
decode after encode is the identity. -/
theorem c8_token_roundtrip (t : OAuthToken) :
    decodeToken (encodeToken t) = Except.ok t := by
  cases t
  rfl

/-- C5: if reading and decoding the cache file succeeds, `getToken`
returns that token immediately — for every token, with no expiry check
and no web authorization (`webAuths = 0`); if the cache read fails, the
web path is taken exactly once: one cache read, one web authorization,
never a loop back. -/
theorem c5_cache_first_web_once :
    (∀ (readCache : String → Except String OAuthToken) web save f t,
        readCache f = Except.ok t →
        getToken (Except.ok f) readCache web save =
          (TokenTrace.mk 1 0 0, Except.ok t)) ∧
    (∀ (readCache : String → Except String OAuthToken) web save f e,
        readCache f = Except.error e →
        ((getToken (Except.ok f) readCache web save).1.cacheReads = 1 ∧
         (getToken (Except.ok f) readCache web save).1.webAuths = 1)) := by
  constructor
  · intro readCache web save f t h
    simp [getToken, h]
  · intro readCache web save f e h
    cases web with
    | error e2 => simp [getToken, h]
    | ok token =>
      cases hs : save f token with
      | error e3 => simp [getToken, h, hs]
      | ok u => simp [getToken, h, hs]

theorem c5_cache_first_web_once_witness :
    ((fun _ : String =>
        (Except.ok (OAuthToken.mk "a" "Bearer" "r" "x") : Except String OAuthToken)) "p" =
        Except.ok (OAuthToken.mk "a" "Bearer" "r" "x")) ∧
    getToken (Except.ok "p") (fun _ => Except.ok (OAuthToken.mk "a" "Bearer" "r" "x"))
        (Except.error "no web") (fun _ _ => Except.ok ()) =
      (TokenTrace.mk 1 0 0, Except.ok (OAuthToken.mk "a" "Bearer" "r" "x")) :=
  ⟨rfl, c5_cache_first_web_once.1 (fun _ => Except.ok (OAuthToken.mk "a" "Bearer" "r" "x"))
    (Except.error "no web") (fun _ _ => Except.ok ()) "p"
    (OAuthToken.mk "a" "Bearer" "r" "x") rfl⟩

/-- C6: on the web path, a successfully exchanged token is saved before
`getToken` returns it (`saves = 1` in the success trace); a failure to
read the code, to exchange it, or to save the token each surfaces as an
error with no retry; hence `getToken` returns a token only when the
cache read succeeded or both the exchange and the save succeeded. -/
theorem c6_web_path_persist_or_fail :
    (∀ (readCache : String → Except String OAuthToken) scan exchange save f e code t,
        readCache f = Except.error e → scan = Except.ok code →
        exchange code = Except.ok t → save f t = Except.ok () →
        getToken (Except.ok f) readCache (getTokenFromWeb scan exchange) save =
          (TokenTrace.mk 1 1 1, Except.ok t)) ∧
    (∀ (readCache : String → Except String OAuthToken) exchange save f e e2,
        readCache f = Except.error e →
        (getToken (Except.ok f) readCache
            (getTokenFromWeb (Except.error e2) exchange) save).2 =
          Except.error ("unable to read authorization code: " ++ e2)) ∧
    (∀ (readCache : String → Except String OAuthToken) save f e e2 code,
        readCache f = Except.error e →
        (getToken (Except.ok f) readCache
            (getTokenFromWeb (Except.ok code) (fun _ => Except.error e2)) save).2 =
          Except.error ("unable to retrieve token from web: " ++ e2)) ∧
    (∀ (readCache : String → Except String OAuthToken) scan exchange save f e e2 code t,
        readCache f = Except.error e → scan = Except.ok code →
        exchange code = Except.ok t → save f t = Except.error e2 →
        (getToken (Except.ok f) readCache (getTokenFromWeb scan exchange) save).2 =
          Except.error e2) ∧
    (∀ pathR (readCache : String → Except String OAuthToken) scan exchange save t,
        (getToken pathR readCache (getTokenFromWeb scan exchange) save).2 =
          Except.ok t →
        (∃ f, pathR = Except.ok f ∧ readCache f = Except.ok t) ∨
        (∃ f code, pathR = Except.ok f ∧ scan = Except.ok code ∧
          exchange code = Except.ok t ∧ save f t = Except.ok ())) := by
  refine ⟨?_, ?_, ?_, ?_, ?_⟩
  · intro readCache scan exchange save f e code t hr hs he hv
    simp [getToken, getTokenFromWeb, hr, hs, he, hv]
  · intro readCache exchange save f e e2 hr
    simp [getToken, getTokenFromWeb, hr]
  · intro readCache save f e e2 code hr
    simp [getToken, getTokenFromWeb, hr]
  · intro readCache scan exchange save f e e2 code t hr hs he hv
    simp [getToken, getTokenFromWeb, hr, hs, he, hv]
  · intro pathR readCache scan exchange save t h
    cases pathR with
    | error e => simp [getToken] at h
    | ok f =>
      cases hr : readCache f with
      | ok t2 =>
        left
        refine ⟨f, rfl, ?_⟩
        simp [getToken, hr] at h
        simp [hr, h]
      | error e =>
        right
        cases hs : scan with
        | error e2 => simp [getToken, getTokenFromWeb, hr, hs] at h
        | ok code =>
          cases he : exchange code with
          | error e2 => simp [getToken, getTokenFromWeb, hr, hs, he] at h
          | ok t2 =>
            cases hv : save f t2 with
            | error e2 => simp [getToken, getTokenFromWeb, hr, hs, he, hv] at h
            | ok u =>
              simp [getToken, getTokenFromWeb, hr, hs, he, hv] at h
              exact ⟨f, code, rfl, rfl, by rw [he, h], by rw [h] at hv; rw [hv]⟩

theorem c6_web_path_persist_or_fail_witness :
    ((fun _ : String => (Except.error "absent" : Except String OAuthToken)) "p" =
        Except.error "absent") ∧
    getToken (Except.ok "p") (fun _ => Except.error "absent")
        (getTokenFromWeb (Except.ok "code")
          (fun _ => Except.ok (OAuthToken.mk "a" "Bearer" "r" "x")))
        (fun _ _ => Except.ok ()) =
      (TokenTrace.mk 1 1 1, Except.ok (OAuthToken.mk "a" "Bearer" "r" "x")) :=
  ⟨rfl, c6_web_path_persist_or_fail.1 (fun _ => Except.error "absent")
    (Except.ok "code") (fun _ => Except.ok (OAuthToken.mk "a" "Bearer" "r" "x"))
    (fun _ _ => Except.ok ()) "p" "absent" "code"
    (OAuthToken.mk "a" "Bearer" "r" "x") rfl rfl rfl rfl⟩

/-! ### Enumerator lemmas -/

theorem getItemInfo_foldl_fst (insert : TrackInfo → Except String Unit)
    (meta : playlistMeta) (items : List PlaylistItem)
    (acc : List TrackInfo × List String) :
    (items.foldl
      (fun acc playlistItem =>
        let oi := mkTrack meta playlistItem
        match PostProduct insert oi with
        | Except.error e => (acc.1 ++ [oi], acc.2 ++ [e])
        | Except.ok _ => (acc.1 ++ [oi], acc.2)) acc).1
      = acc.1 ++ items.map (mkTrack meta) := by
  induction items generalizing acc with
  | nil => simp
  | cons it rest ih =>
    simp only [List.foldl_cons, List.map_cons]
    cases h : PostProduct insert (mkTrack meta it) with
    | error e => simp [h, ih]
    | ok u => simp [h, ih]

/-- The records `getItemInfo` hands to the sink are exactly the page's
items, in order, regardless of sink errors (the loop never stops
early). -/
theorem getItemInfo_fst (insert : TrackInfo → Except String Unit)
    (playlistResponse : PlaylistItemListResponse) (meta : playlistMeta) :
    (getItemInfo insert playlistResponse meta).1 =
      playlistResponse.items.map (mkTrack meta) := by
  simpa using getItemInfo_foldl_fst insert meta playlistResponse.items ([], [])

/-- The inner paging loop exits normally only with the shared
`nextPageToken` variable equal to the empty string. -/
theorem runPages_done_empty (fetch : FetchReq → Except String PlaylistItemListResponse)
    (insert : TrackInfo → Except String Unit) (meta : playlistMeta)
    (token : String) (fuel : Nat) (tr : PageTrace) (t : String)
    (h : runPages fetch insert meta token fuel = (tr, PageOutcome.done t)) :
    t = "" := by
  induction fuel generalizing token tr with
  | zero => simp [runPages] at h
  | succ fuel ih =>
    simp only [runPages] at h
    cases hf : fetch (FetchReq.mk meta.ID 50 token) with
    | error e => simp [hf] at h
    | ok resp =>
      simp only [hf] at h
      by_cases ht : resp.nextPageToken = ""
      · simp [ht] at h
        exact h.2.symm
      · simp only [if_neg ht] at h
        have h2 : (runPages fetch insert meta resp.nextPageToken fuel).2 =
            PageOutcome.done t := by
          have := congrArg Prod.snd h
          simpa using this
        exact ih resp.nextPageToken
          (runPages fetch insert meta resp.nextPageToken fuel).1 (by rw [← h2])

/-- The first page request the inner loop issues carries the token the
loop was entered with. -/
theorem runPages_first_req (fetch : FetchReq → Except String PlaylistItemListResponse)
    (insert : TrackInfo → Except String Unit) (meta : playlistMeta)
    (token : String) (fuel : Nat) (h : 0 < fuel) :
    ((runPages fetch insert meta token fuel).1.reqs).head? =
      some (FetchReq.mk meta.ID 50 token) := by
  cases fuel with
  | zero => exact absurd h (by simp)
  | succ fuel =>
    simp only [runPages]
    cases hf : fetch (FetchReq.mk meta.ID 50 token) with
    | error e => simp
    | ok resp =>
      by_cases ht : resp.nextPageToken = ""
      · simp [ht]
      · simp [ht, PageTrace.append]

/-- Every record the inner loop posts carries the owning playlist's
title. -/
theorem runPages_posted_title (fetch : FetchReq → Except String PlaylistItemListResponse)
    (insert : TrackInfo → Except String Unit) (meta : playlistMeta)
    (token : String) (fuel : Nat) (rec : TrackInfo)
    (h : rec ∈ (runPages fetch insert meta token fuel).1.posted) :
    rec.PlaylistTitle = meta.Title := by
  induction fuel generalizing token with
  | zero => simp [runPages] at h
  | succ fuel ih =>
    simp only [runPages] at h
    cases hf : fetch (FetchReq.mk meta.ID 50 token) with
    | error e => simp [hf] at h
    | ok resp =>
      simp only [hf] at h
      by_cases ht : resp.nextPageToken = ""
      · simp [ht, getItemInfo_fst] at h
        obtain ⟨it, _, hrec⟩ := h
        rw [← hrec]
        rfl
      · simp [ht, PageTrace.append, getItemInfo_fst] at h
        rcases h with ⟨it, _, hrec⟩ | h2
        · rw [← hrec]
          rfl
        · exact ih resp.nextPageToken h2

/-- Every record posted by the outer loop of `getListItems` carries the title of
one of the playlists it was given. -/
theorem getListItemsGo_posted_title
    (fetch : FetchReq → Except String PlaylistItemListResponse)
    (insert : TrackInfo → Except String Unit) (fuel : Nat)
    (metas : List playlistMeta) (token : String) (rec : TrackInfo)
    (h : rec ∈ (getListItemsGo fetch insert fuel metas token).1.posted) :
    ∃ m ∈ metas, rec.PlaylistTitle = m.Title := by
  induction metas generalizing token with
  | nil => simp [getListItemsGo] at h
  | cons meta rest ih =>
    simp only [getListItemsGo] at h
    cases hr : runPages fetch insert meta token fuel with
    | mk tr out =>
      cases out with
      | done token2 =>
        simp only [hr, PageTrace.append] at h
        rcases List.mem_append.mp h with h1 | h2
        · exact ⟨meta, List.mem_cons_self _ _,
            runPages_posted_title fetch insert meta token fuel rec (by rw [hr]; exact h1)⟩
        · obtain ⟨m, hm, hrec⟩ := ih token2 h2
          exact ⟨m, List.mem_cons_of_mem _ hm, hrec⟩
      | failed e =>
        simp only [hr] at h
        exact ⟨meta, List.mem_cons_self _ _,
          runPages_posted_title fetch insert meta token fuel rec (by rw [hr]; exact h)⟩
      | spin t2 =>
        simp only [hr] at h
        exact ⟨meta, List.mem_cons_self _ _,
          runPages_posted_title fetch insert meta token fuel rec (by rw [hr]; exact h)⟩

/-- The requests issued, the records posted and the loop outcome of the
inner paging loop do not depend on the sink: sink failures never steer
control flow. -/
theorem runPages_insert_indep
    (fetch : FetchReq → Except String PlaylistItemListResponse)
    (insert insert2 : TrackInfo → Except String Unit) (meta : playlistMeta)
    (token : String) (fuel : Nat) :
    (runPages fetch insert meta token fuel).1.reqs =
        (runPages fetch insert2 meta token fuel).1.reqs ∧
    (runPages fetch insert meta token fuel).1.posted =
        (runPages fetch insert2 meta token fuel).1.posted ∧
    (runPages fetch insert meta token fuel).2 =
        (runPages fetch insert2 meta token fuel).2 := by
  induction fuel generalizing token with
  | zero => simp [runPages]
  | succ fuel ih =>
    simp only [runPages]
    cases hf : fetch (FetchReq.mk meta.ID 50 token) with
    | error e => simp
    | ok resp =>
      by_cases ht : resp.nextPageToken = ""
      · simp [ht, getItemInfo_fst]
      · obtain ⟨h1, h2, h3⟩ := ih resp.nextPageToken
        simp [ht, PageTrace.append, getItemInfo_fst, h1, h2, h3]

/-- The requests, posted records and outcome of `getListItemsGo` do not
depend on the sink either. -/
theorem getListItemsGo_insert_indep
    (fetch : FetchReq → Except String PlaylistItemListResponse)
    (insert insert2 : TrackInfo → Except String Unit) (fuel : Nat)
    (metas : List playlistMeta) (token : String) :
    (getListItemsGo fetch insert fuel metas token).1.reqs =
        (getListItemsGo fetch insert2 fuel metas token).1.reqs ∧
    (getListItemsGo fetch insert fuel metas token).1.posted =
        (getListItemsGo fetch insert2 fuel metas token).1.posted ∧
    (getListItemsGo fetch insert fuel metas token).2 =
        (getListItemsGo fetch insert2 fuel metas token).2 := by
  induction metas generalizing token with
  | nil => simp [getListItemsGo]
  | cons meta rest ih =>
    obtain ⟨h1, h2, h3⟩ := runPages_insert_indep fetch insert insert2 meta token fuel
    simp only [getListItemsGo]
    cases hr : runPages fetch insert meta token fuel with
    | mk tr out =>
      cases hr2 : runPages fetch insert2 meta token fuel with
      | mk tr2 out2 =>
        rw [hr, hr2] at h1 h2 h3
        dsimp only at h1 h2 h3
        cases out with
        | done token2 =>
          cases out2 with
          | done token3 =>
            cases h3
            obtain ⟨g1, g2, g3⟩ := ih token2
            refine ⟨?_, ?_, ?_⟩ <;> simp [PageTrace.append, g1, g2, g3, h1, h2]
          | failed e => simp at h3
          | spin t2 => simp at h3
        | failed e =>
          cases out2 with
          | done token3 => simp at h3
          | failed e2 =>
            cases h3
            exact ⟨h1, h2, rfl⟩
          | spin t2 => simp at h3
        | spin t2 =>
          cases out2 with
          | done token3 => simp at h3
          | failed e2 => simp at h3
          | spin t3 => exact ⟨h1, h2, rfl⟩

/-- The value of the shared `nextPageToken` variable at the entry of each
successive playlist's paging loop, for a run of `getListItemsGo` from
`token` (the run of `getListItems` starts from `""`); recorded for as
many playlists as actually start their loop. -/
def entryTokens (fetch : FetchReq → Except String PlaylistItemListResponse)
    (insert : TrackInfo → Except String Unit) (fuel : Nat) :
    List playlistMeta → String → List String
  | [], _ => []
  | meta :: rest, token =>
    token :: (match runPages fetch insert meta token fuel with
      | (_, PageOutcome.done token2) => entryTokens fetch insert fuel rest token2
      | _ => [])

theorem entryTokens_all_empty
    (fetch : FetchReq → Except String PlaylistItemListResponse)
    (insert : TrackInfo → Except String Unit) (fuel : Nat)
    (metas : List playlistMeta) (token : String) (htoken : token = "")
    (t : String) (h : t ∈ entryTokens fetch insert fuel metas token) : t = "" := by
  induction metas generalizing token with
  | nil => simp [entryTokens] at h
  | cons meta rest ih =>
    simp only [entryTokens] at h
    rcases List.mem_cons.mp h with h1 | h2
    · rw [h1, htoken]
    · cases hr : runPages fetch insert meta token fuel with
      | mk tr out =>
        cases out with
        | done token2 =>
          rw [hr] at h2
          exact ih token2
            (runPages_done_empty fetch insert meta token fuel tr token2 hr) h2
        | failed e =>
          rw [hr] at h2
          simp at h2
        | spin t2 =>
          rw [hr] at h2
          simp at h2

/-- One-step unfolding of the inner paging loop at positive fuel. -/
theorem runPages_succ (fetch : FetchReq → Except String PlaylistItemListResponse)
    (insert : TrackInfo → Except String Unit) (meta : playlistMeta)
    (token : String) (fuel : Nat) :
    runPages fetch insert meta token (fuel + 1) =
      match fetch (FetchReq.mk meta.ID 50 token) with
      | Except.error e =>
          (PageTrace.mk [FetchReq.mk meta.ID 50 token] [] [],
           PageOutcome.failed ("error fetching playlist items: " ++ e))
      | Except.ok playlistResponse =>
          let posts := getItemInfo insert playlistResponse meta
          let tr := PageTrace.mk [FetchReq.mk meta.ID 50 token] posts.1 posts.2
          if playlistResponse.nextPageToken = "" then
            (tr, PageOutcome.done playlistResponse.nextPageToken)
          else
            let rest := runPages fetch insert meta playlistResponse.nextPageToken fuel
            (tr.append rest.1, rest.2) := rfl

/-! ### Concrete oracles used by witnesses and counterexamples -/

def fetchEmptyPage : FetchReq → Except String PlaylistItemListResponse :=
  fun _ => Except.ok (PlaylistItemListResponse.mk [] "")

def insertOk : TrackInfo → Except String Unit := fun _ => Except.ok ()

def metaW : playlistMeta := playlistMeta.mk "PL0" "T0" 0

def chW : Channel := Channel.mk "CH0"

def channelsOkOracle : ChannelsReq → Except String ChannelListResponse :=
  fun _ => Except.ok (ChannelListResponse.mk [chW])

def plFav : Playlist := Playlist.mk "PLF" "Favorites" 1

def plA : Playlist := Playlist.mk "PLA" "Mix" 2

def playlistsOracle : PlaylistsReq → Except String PlaylistListResponse :=
  fun _ => Except.ok (PlaylistListResponse.mk [plFav, plA])

def metaA : playlistMeta := playlistMeta.mk "PLA" "Mix" 2

def itemW : PlaylistItem := PlaylistItem.mk "song" "vid" 0 "2020-01-01" "ownT" "ownC"

def fetchOneItem : FetchReq → Except String PlaylistItemListResponse :=
  fun _ => Except.ok (PlaylistItemListResponse.mk [itemW] "")

/-! ### Claim theorems -/

/-- C9: `nextPageToken` is declared once in `getListItems` and shared
across all playlists, yet each playlist's loop is entered with it equal
to `""`: the inner loop exits normally only once the token has been set
to `""` (first conjunct), so in a run of `getListItems` (which starts
from `""`) the token observed at every playlist-loop entry is `""`
(second conjunct), and the first page request of a playlist carries
exactly the entry token (third conjunct) — hence every playlist's first
request is issued with an empty page token. -/
theorem c9_shared_token_empty_at_playlist_start :
    (∀ (fetch : FetchReq → Except String PlaylistItemListResponse)
       (insert : TrackInfo → Except String Unit) (meta : playlistMeta)
       (token : String) (fuel : Nat) (tr : PageTrace) (t : String),
        runPages fetch insert meta token fuel = (tr, PageOutcome.done t) → t = "") ∧
    (∀ (fetch : FetchReq → Except String PlaylistItemListResponse)
       (insert : TrackInfo → Except String Unit) (fuel : Nat)
       (metas : List playlistMeta) (t : String),
        t ∈ entryTokens fetch insert fuel metas "" → t = "") ∧
    (∀ (fetch : FetchReq → Except String PlaylistItemListResponse)
       (insert : TrackInfo → Except String Unit) (meta : playlistMeta)
       (token : String) (fuel : Nat), 0 < fuel →
        ((runPages fetch insert meta token fuel).1.reqs).head? =
          some (FetchReq.mk meta.ID 50 token)) :=
  ⟨fun fetch insert meta token fuel tr t h =>
      runPages_done_empty fetch insert meta token fuel tr t h,
   fun fetch insert fuel metas t h =>
      entryTokens_all_empty fetch insert fuel metas "" rfl t h,
   fun fetch insert meta token fuel h =>
      runPages_first_req fetch insert meta token fuel h⟩

theorem c9_shared_token_empty_at_playlist_start_witness :
    (runPages fetchEmptyPage insertOk metaW "" 1 =
      (PageTrace.mk [FetchReq.mk "PL0" 50 ""] [] [], PageOutcome.done "")) ∧
    (("" : String) ∈ entryTokens fetchEmptyPage insertOk 1 [metaW] "") ∧
    (0 < 1) ∧
    (("" : String) = "") ∧
    ((runPages fetchEmptyPage insertOk metaW "Z" 1).1.reqs).head? =
      some (FetchReq.mk "PL0" 50 "Z") :=
  ⟨rfl, by decide, by decide,
   c9_shared_token_empty_at_playlist_start.2.1 fetchEmptyPage insertOk 1 [metaW] ""
     (by decide),
   c9_shared_token_empty_at_playlist_start.2.2 fetchEmptyPage insertOk metaW "Z" 1
     (by decide)⟩

/-- C10: whenever `getChannelsLists` returns successfully its response
has at least one item (the zero-item case errors instead), so
the unguarded access of `getListsID` to `Items[0]` never panics on such a
response; and the result of `getListsID` depends only on the first
channel — any further matching channels are ignored. -/
theorem c10_first_channel_access_safe :
    (∀ (doCall : ChannelsReq → Except String ChannelListResponse) part username resp,
        getChannelsLists doCall part username = Except.ok resp → resp.items ≠ []) ∧
    (∀ (doCall : PlaylistsReq → Except String PlaylistListResponse)
       (resp : ChannelListResponse), resp.items ≠ [] →
        (getListsID doCall resp).isSome) ∧
    (∀ (doCall : PlaylistsReq → Except String PlaylistListResponse)
       (ch : Channel) (rest rest2 : List Channel),
        getListsID doCall (ChannelListResponse.mk (ch :: rest)) =
          getListsID doCall (ChannelListResponse.mk (ch :: rest2))) := by
  refine ⟨?_, ?_, ?_⟩
  · intro doCall part username resp h
    unfold getChannelsLists at h
    cases hc : doCall (ChannelsReq.mk part username) with
    | error e => rw [hc] at h; simp at h
    | ok response =>
      rw [hc] at h
      by_cases hl : response.items.length = 0
      · simp [hl] at h
      · simp only [if_neg hl, Except.ok.injEq] at h
        rw [← h]
        intro hnil
        exact hl (by rw [hnil]; rfl)
  · intro doCall resp h
    cases resp with
    | mk items =>
      cases items with
      | nil => exact absurd rfl h
      | cons ch rest => simp [getListsID]
  · intro doCall ch rest rest2
    rfl

theorem c10_first_channel_access_safe_witness :
    (getChannelsLists channelsOkOracle ["snippet", "contentDetails"] "user" =
      Except.ok (ChannelListResponse.mk [chW])) ∧
    (ChannelListResponse.mk [chW]).items ≠ [] ∧
    (getListsID playlistsOracle (ChannelListResponse.mk [chW])).isSome :=
  ⟨rfl,
   c10_first_channel_access_safe.1 channelsOkOracle ["snippet", "contentDetails"]
     "user" (ChannelListResponse.mk [chW]) rfl,
   c10_first_channel_access_safe.2.1 playlistsOracle (ChannelListResponse.mk [chW])
     (by decide)⟩

/-- C7: when the channel lookup responds with zero items, the run fails
with the wrapped lookup error ("incorrect userName") and performs zero
playlist-list calls and zero playlist-item fetches (and hands nothing
to the sink). -/
theorem c7_zero_channel_items_aborts :
    ∀ (api : Api) (userName : String) (fuel : Nat),
      api.channels (ChannelsReq.mk ["snippet", "contentDetails"] userName) =
        Except.ok (ChannelListResponse.mk []) →
      RunCore api userName fuel =
        (RunTrace.mk 1 0 [] [],
         RunRes.err
           (" - - - unable to get channel list - - - : " ++ "incorrect userName")) := by
  intro api userName fuel h
  simp [RunCore, getChannelsLists, h]

def apiC7 : Api :=
  Api.mk (fun _ => Except.ok (ChannelListResponse.mk []))
    playlistsOracle fetchOneItem insertOk

theorem c7_zero_channel_items_aborts_witness :
    (apiC7.channels (ChannelsReq.mk ["snippet", "contentDetails"] "nobody") =
      Except.ok (ChannelListResponse.mk [])) ∧
    RunCore apiC7 "nobody" 3 =
      (RunTrace.mk 1 0 [] [],
       RunRes.err
         (" - - - unable to get channel list - - - : " ++ "incorrect userName")) :=
  ⟨rfl, c7_zero_channel_items_aborts apiC7 "nobody" 3 rfl⟩

/-- C2: the playlist list is requested with `MaxResults(25)` in a single
call (no pagination: the one response is returned as-is); from it,
`getListsID` keeps exactly the playlists not titled "Favorites",
preserving their response order; and every record the enumerator posts
carries the title of one of those kept playlists — so a "Favorites"
playlist contributes zero records. -/
theorem c2_favorites_filtered_bounded_25 :
    (∀ channelId, (playlistsRequest channelId).maxResults = 25) ∧
    (∀ (doCall : PlaylistsReq → Except String PlaylistListResponse) channelId r,
        getPlaylistsInfo doCall channelId = Except.ok r →
        doCall (playlistsRequest channelId) = Except.ok r) ∧
    (∀ (doCall : PlaylistsReq → Except String PlaylistListResponse)
       (resp : ChannelListResponse) (ch : Channel) (rest : List Channel)
       (metas : List playlistMeta),
        resp.items = ch :: rest →
        getListsID doCall resp = some (Except.ok metas) →
        ∃ resp2, getPlaylistsInfo doCall ch.id = Except.ok resp2 ∧
          metas = (resp2.items.filter (fun playlist => playlist.title ≠ "Favorites")).map
            (fun playlist => playlistMeta.mk playlist.id playlist.title playlist.itemCount)) ∧
    (∀ (fetch : FetchReq → Except String PlaylistItemListResponse)
       (insert : TrackInfo → Except String Unit) (metas : List playlistMeta)
       (fuel : Nat) (rec : TrackInfo),
        (∀ m ∈ metas, m.Title ≠ "Favorites") →
        rec ∈ (getListItems fetch insert metas fuel).1.posted →
        rec.PlaylistTitle ≠ "Favorites") := by
  refine ⟨fun channelId => rfl, ?_, ?_, ?_⟩
  · intro doCall channelId r h
    unfold getPlaylistsInfo at h
    cases hc : doCall (playlistsRequest channelId) with
    | error e => rw [hc] at h; simp at h
    | ok r2 => rw [hc] at h; simp at h; rw [h]
  · intro doCall resp ch rest metas hitems h
    unfold getListsID at h
    rw [hitems] at h
    simp only [List.head?_cons, Option.some.injEq] at h
    cases hp : getPlaylistsInfo doCall ch.id with
    | error e => rw [hp] at h; simp at h
    | ok resp2 =>
      rw [hp] at h
      simp only [Except.ok.injEq] at h
      exact ⟨resp2, rfl, h.symm⟩
  · intro fetch insert metas fuel rec hmeta h
    obtain ⟨m, hm, hrec⟩ :=
      getListItemsGo_posted_title fetch insert fuel metas "" rec h
    rw [hrec]
    exact hmeta m hm

theorem c2_favorites_filtered_bounded_25_witness :
    (getPlaylistsInfo playlistsOracle "CH0" =
      Except.ok (PlaylistListResponse.mk [plFav, plA])) ∧
    (playlistsOracle (playlistsRequest "CH0") =
      Except.ok (PlaylistListResponse.mk [plFav, plA])) ∧
    ((ChannelListResponse.mk [chW]).items = chW :: []) ∧
    (getListsID playlistsOracle (ChannelListResponse.mk [chW]) =
      some (Except.ok [metaA])) ∧
    (∃ resp2, getPlaylistsInfo playlistsOracle chW.id = Except.ok resp2 ∧
      [metaA] = (resp2.items.filter (fun playlist => playlist.title ≠ "Favorites")).map
        (fun playlist => playlistMeta.mk playlist.id playlist.title playlist.itemCount)) ∧
    (∀ m ∈ [metaA], m.Title ≠ "Favorites") ∧
    (mkTrack metaA itemW ∈ (getListItems fetchOneItem insertOk [metaA] 1).1.posted) ∧
    (mkTrack metaA itemW).PlaylistTitle ≠ "Favorites" := by
  refine ⟨rfl, ?_, rfl, rfl, ?_, by decide, by decide, ?_⟩
  · exact c2_favorites_filtered_bounded_25.2.1 playlistsOracle "CH0"
      (PlaylistListResponse.mk [plFav, plA]) rfl
  · exact c2_favorites_filtered_bounded_25.2.2.1 playlistsOracle
      (ChannelListResponse.mk [chW]) chW [] [metaA] rfl rfl
  · exact c2_favorites_filtered_bounded_25.2.2.2 fetchOneItem insertOk [metaA] 1
      (mkTrack metaA itemW) (by decide) (by decide)

/-- C1: for a playlist whose items span three pages of 50, 50 and 7
items with next-page cursors "A", "B", then empty, `getListItems`
issues exactly three page requests — page tokens "", "A", "B", each
with `MaxResults(50)` — and posts exactly 107 records in fetch order,
each carrying the position reported per item, finishing normally: it
continues to the next page exactly while the response's cursor is
non-empty. -/
theorem c1_three_pages_enumeration :
    ∀ (fetch : FetchReq → Except String PlaylistItemListResponse)
      (insert : TrackInfo → Except String Unit) (meta : playlistMeta)
      (p1 p2 p3 : List PlaylistItem) (fuel : Nat),
      p1.length = 50 → p2.length = 50 → p3.length = 7 →
      fetch (FetchReq.mk meta.ID 50 "") =
        Except.ok (PlaylistItemListResponse.mk p1 "A") →
      fetch (FetchReq.mk meta.ID 50 "A") =
        Except.ok (PlaylistItemListResponse.mk p2 "B") →
      fetch (FetchReq.mk meta.ID 50 "B") =
        Except.ok (PlaylistItemListResponse.mk p3 "") →
      3 ≤ fuel →
      (getListItems fetch insert [meta] fuel).1.reqs =
          [FetchReq.mk meta.ID 50 "", FetchReq.mk meta.ID 50 "A",
           FetchReq.mk meta.ID 50 "B"] ∧
      (getListItems fetch insert [meta] fuel).1.posted =
          (p1 ++ p2 ++ p3).map (mkTrack meta) ∧
      (getListItems fetch insert [meta] fuel).1.posted.length = 107 ∧
      (getListItems fetch insert [meta] fuel).1.posted.map
          (fun rec => rec.Position) =
          (p1 ++ p2 ++ p3).map (fun it => it.position) ∧
      (getListItems fetch insert [meta] fuel).2 = RunOutcome.ok := by
  intro fetch insert meta p1 p2 p3 fuel h1 h2 h3 hf1 hf2 hf3 hfuel
  obtain ⟨k, rfl⟩ : ∃ k, fuel = k + 3 := ⟨fuel - 3, by omega⟩
  have hA : ¬(("A" : String) = "") := by decide
  have hB : ¬(("B" : String) = "") := by decide
  have s3 : runPages fetch insert meta "B" (k + 1) =
      (PageTrace.mk [FetchReq.mk meta.ID 50 "B"]
        (p3.map (mkTrack meta))
        (getItemInfo insert (PlaylistItemListResponse.mk p3 "") meta).2,
       PageOutcome.done "") := by
    rw [runPages_succ, hf3]
    simp [getItemInfo_fst]
  have s2 : runPages fetch insert meta "A" (k + 2) =
      (PageTrace.mk [FetchReq.mk meta.ID 50 "A", FetchReq.mk meta.ID 50 "B"]
        (p2.map (mkTrack meta) ++ p3.map (mkTrack meta))
        ((getItemInfo insert (PlaylistItemListResponse.mk p2 "B") meta).2 ++
         (getItemInfo insert (PlaylistItemListResponse.mk p3 "") meta).2),
       PageOutcome.done "") := by
    show runPages fetch insert meta "A" ((k + 1) + 1) = _
    rw [runPages_succ, hf2]
    dsimp only
    rw [if_neg hB, s3]
    simp [PageTrace.append, getItemInfo_fst]
  have s1 : runPages fetch insert meta "" (k + 3) =
      (PageTrace.mk [FetchReq.mk meta.ID 50 "", FetchReq.mk meta.ID 50 "A",
          FetchReq.mk meta.ID 50 "B"]
        (p1.map (mkTrack meta) ++ (p2.map (mkTrack meta) ++ p3.map (mkTrack meta)))
        ((getItemInfo insert (PlaylistItemListResponse.mk p1 "A") meta).2 ++
         ((getItemInfo insert (PlaylistItemListResponse.mk p2 "B") meta).2 ++
          (getItemInfo insert (PlaylistItemListResponse.mk p3 "") meta).2)),
       PageOutcome.done "") := by
    show runPages fetch insert meta "" ((k + 2) + 1) = _
    rw [runPages_succ, hf1]
    dsimp only
    rw [if_neg hA, s2]
    simp [PageTrace.append, getItemInfo_fst]
  have hrun : getListItems fetch insert [meta] (k + 3) =
      (PageTrace.mk [FetchReq.mk meta.ID 50 "", FetchReq.mk meta.ID 50 "A",
          FetchReq.mk meta.ID 50 "B"]
        (p1.map (mkTrack meta) ++ (p2.map (mkTrack meta) ++ p3.map (mkTrack meta)))
        ((getItemInfo insert (PlaylistItemListResponse.mk p1 "A") meta).2 ++
         ((getItemInfo insert (PlaylistItemListResponse.mk p2 "B") meta).2 ++
          (getItemInfo insert (PlaylistItemListResponse.mk p3 "") meta).2)),
       RunOutcome.ok) := by
    show getListItemsGo fetch insert (k + 3) [meta] "" = _
    simp only [getListItemsGo]
    rw [s1]
    simp [PageTrace.append]
  refine ⟨by rw [hrun], ?_, ?_, ?_, by rw [hrun]⟩
  · rw [hrun]
    simp [List.map_append]
  · rw [hrun]
    simp [h1, h2, h3]
  · rw [hrun]
    simp [List.map_map, Function.comp_def, mkTrack]

def mkItems (start n : Nat) : List PlaylistItem :=
  (List.range n).map (fun i =>
    PlaylistItem.mk "t" "v" ((start + i : Nat) : Int) "d" "oT" "oC")

def metaC1 : playlistMeta := playlistMeta.mk "PL1" "Tracks" 107

def fetchC1 : FetchReq → Except String PlaylistItemListResponse := fun req =>
  if req = FetchReq.mk "PL1" 50 "" then
    Except.ok (PlaylistItemListResponse.mk (mkItems 0 50) "A")
  else if req = FetchReq.mk "PL1" 50 "A" then
    Except.ok (PlaylistItemListResponse.mk (mkItems 50 50) "B")
  else if req = FetchReq.mk "PL1" 50 "B" then
    Except.ok (PlaylistItemListResponse.mk (mkItems 100 7) "")
  else Except.error "unexpected request"

theorem c1_three_pages_enumeration_witness :
    ((mkItems 0 50).length = 50) ∧ ((mkItems 50 50).length = 50) ∧
    ((mkItems 100 7).length = 7) ∧
    (fetchC1 (FetchReq.mk "PL1" 50 "") =
      Except.ok (PlaylistItemListResponse.mk (mkItems 0 50) "A")) ∧
    (fetchC1 (FetchReq.mk "PL1" 50 "A") =
      Except.ok (PlaylistItemListResponse.mk (mkItems 50 50) "B")) ∧
    (fetchC1 (FetchReq.mk "PL1" 50 "B") =
      Except.ok (PlaylistItemListResponse.mk (mkItems 100 7) "")) ∧
    (3 ≤ 5) ∧
    (getListItems fetchC1 insertOk [metaC1] 5).1.posted.length = 107 ∧
    (getListItems fetchC1 insertOk [metaC1] 5).2 = RunOutcome.ok := by
  have h1 : (mkItems 0 50).length = 50 := by simp [mkItems]
  have h2 : (mkItems 50 50).length = 50 := by simp [mkItems]
  have h3 : (mkItems 100 7).length = 7 := by simp [mkItems]
  have hc := c1_three_pages_enumeration fetchC1 insertOk metaC1
    (mkItems 0 50) (mkItems 50 50) (mkItems 100 7) 5 h1 h2 h3 rfl rfl rfl
    (by decide)
  exact ⟨h1, h2, h3, rfl, rfl, rfl, by decide, hc.2.2.1, hc.2.2.2.2⟩

/-- C3: a page-fetch failure aborts the whole enumeration with the
wrapped fetch error: the records of the pages fetched before the
failure have already been handed to the sink one at a time and appear
in the trace, the failing request is the last one issued, and — for any
list of remaining playlists — no further page and no further playlist
is attempted (first conjunct: the second-page-failure scenario; second
conjunct: whenever a playlist's paging loop fails, the outer loop stops
there with exactly that playlist's trace). -/
theorem c3_fetch_failure_aborts :
    (∀ (fetch : FetchReq → Except String PlaylistItemListResponse)
       (insert : TrackInfo → Except String Unit) (meta : playlistMeta)
       (rest : List playlistMeta) (p1 : List PlaylistItem) (msg : String)
       (fuel : Nat),
        fetch (FetchReq.mk meta.ID 50 "") =
          Except.ok (PlaylistItemListResponse.mk p1 "A") →
        fetch (FetchReq.mk meta.ID 50 "A") = Except.error msg →
        2 ≤ fuel →
        getListItems fetch insert (meta :: rest) fuel =
          (PageTrace.mk [FetchReq.mk meta.ID 50 "", FetchReq.mk meta.ID 50 "A"]
            (p1.map (mkTrack meta))
            (getItemInfo insert (PlaylistItemListResponse.mk p1 "A") meta).2,
           RunOutcome.err ("error fetching playlist items: " ++ msg))) ∧
    (∀ (fetch : FetchReq → Except String PlaylistItemListResponse)
       (insert : TrackInfo → Except String Unit) (fuel : Nat)
       (meta : playlistMeta) (rest : List playlistMeta) (token : String)
       (tr : PageTrace) (e : String),
        runPages fetch insert meta token fuel = (tr, PageOutcome.failed e) →
        getListItemsGo fetch insert fuel (meta :: rest) token =
          (tr, RunOutcome.err e)) := by
  constructor
  · intro fetch insert meta rest p1 msg fuel hf1 hf2 hfuel
    obtain ⟨k, rfl⟩ : ∃ k, fuel = k + 2 := ⟨fuel - 2, by omega⟩
    have hA : ¬(("A" : String) = "") := by decide
    have t2 : runPages fetch insert meta "A" (k + 1) =
        (PageTrace.mk [FetchReq.mk meta.ID 50 "A"] [] [],
         PageOutcome.failed ("error fetching playlist items: " ++ msg)) := by
      rw [runPages_succ, hf2]
    have t1 : runPages fetch insert meta "" (k + 2) =
        (PageTrace.mk [FetchReq.mk meta.ID 50 "", FetchReq.mk meta.ID 50 "A"]
          (p1.map (mkTrack meta))
          (getItemInfo insert (PlaylistItemListResponse.mk p1 "A") meta).2,
         PageOutcome.failed ("error fetching playlist items: " ++ msg)) := by
      show runPages fetch insert meta "" ((k + 1) + 1) = _
      rw [runPages_succ, hf1]
      dsimp only
      rw [if_neg hA, t2]
      simp [PageTrace.append, getItemInfo_fst]
    show getListItemsGo fetch insert (k + 2) (meta :: rest) "" = _
    simp only [getListItemsGo]
    rw [t1]
  · intro fetch insert fuel meta rest token tr e h
    simp only [getListItemsGo]
    rw [h]

def fetchFailPage2 : FetchReq → Except String PlaylistItemListResponse := fun req =>
  if req = FetchReq.mk "PL1" 50 "" then
    Except.ok (PlaylistItemListResponse.mk (mkItems 0 50) "A")
  else Except.error "boom"

def fetchAllFail : FetchReq → Except String PlaylistItemListResponse :=
  fun _ => Except.error "boom"

theorem c3_fetch_failure_aborts_witness :
    (fetchFailPage2 (FetchReq.mk "PL1" 50 "") =
      Except.ok (PlaylistItemListResponse.mk (mkItems 0 50) "A")) ∧
    (fetchFailPage2 (FetchReq.mk "PL1" 50 "A") = Except.error "boom") ∧
    (2 ≤ 2) ∧
    (getListItems fetchFailPage2 insertOk [metaC1, metaW] 2 =
      (PageTrace.mk [FetchReq.mk "PL1" 50 "", FetchReq.mk "PL1" 50 "A"]
        ((mkItems 0 50).map (mkTrack metaC1))
        (getItemInfo insertOk (PlaylistItemListResponse.mk (mkItems 0 50) "A")
          metaC1).2,
       RunOutcome.err ("error fetching playlist items: " ++ "boom"))) ∧
    (runPages fetchAllFail insertOk metaW "" 1 =
      (PageTrace.mk [FetchReq.mk "PL0" 50 ""] [] [],
       PageOutcome.failed ("error fetching playlist items: " ++ "boom"))) ∧
    (getListItemsGo fetchAllFail insertOk 1 [metaW, metaC1] "" =
      (PageTrace.mk [FetchReq.mk "PL0" 50 ""] [] [],
       RunOutcome.err ("error fetching playlist items: " ++ "boom"))) :=
  ⟨rfl, rfl, by decide,
   c3_fetch_failure_aborts.1 fetchFailPage2 insertOk metaC1 [metaW]
     (mkItems 0 50) "boom" 2 rfl rfl (by decide),
   rfl,
   c3_fetch_failure_aborts.2 fetchAllFail insertOk 1 metaW [metaC1] ""
     (PageTrace.mk [FetchReq.mk "PL0" 50 ""] [] [])
     ("error fetching playlist items: " ++ "boom") rfl⟩

def insertFail : TrackInfo → Except String Unit :=
  fun _ => Except.error "insert failed"

/-- C4 counterexample: at this concrete input the sink's accept
(`PostProduct`) fails on the one record handed to it, yet `getListItems`
— and the whole run — report success: the SinkError is not propagated
to the top level, refuting the claim that every error, including a
SinkError, is propagated unchanged upward. -/
theorem c4_sink_error_counterexample :
    (PostProduct insertFail (mkTrack metaA itemW) =
      Except.error (" - - - unable to write to DB - - - : " ++ "insert failed")) ∧
    (mkTrack metaA itemW ∈ (getListItems fetchOneItem insertFail [metaA] 1).1.posted) ∧
    ((getListItems fetchOneItem insertFail [metaA] 1).2 = RunOutcome.ok) ∧
    ((RunCore (Api.mk channelsOkOracle playlistsOracle fetchOneItem insertFail)
        "user" 1).2 = RunRes.ok) :=
  ⟨rfl, by decide, rfl, rfl⟩

/-- C4 amended: fetch-stage errors are wrapped with a contextual prefix
and abort the paging loop, and `PostProduct` wraps the DB insert error
with its prefix; but a SinkError returned by `PostProduct` is printed
and swallowed inside `getItemInfo`: every item of the page is still
handed to the sink, and the requests, posted records and outcome of
`getListItems` are entirely independent of the sink's errors. -/
theorem c4_amended_sink_error_swallowed :
    (∀ (insert : TrackInfo → Except String Unit) (ti : TrackInfo) (e : String),
        insert ti = Except.error e →
        PostProduct insert ti =
          Except.error (" - - - unable to write to DB - - - : " ++ e)) ∧
    (∀ (insert : TrackInfo → Except String Unit)
       (resp : PlaylistItemListResponse) (meta : playlistMeta),
        (getItemInfo insert resp meta).1 = resp.items.map (mkTrack meta)) ∧
    (∀ (fetch : FetchReq → Except String PlaylistItemListResponse)
       (insert insert2 : TrackInfo → Except String Unit)
       (metas : List playlistMeta) (fuel : Nat),
        (getListItems fetch insert metas fuel).1.reqs =
            (getListItems fetch insert2 metas fuel).1.reqs ∧
        (getListItems fetch insert metas fuel).1.posted =
            (getListItems fetch insert2 metas fuel).1.posted ∧
        (getListItems fetch insert metas fuel).2 =
            (getListItems fetch insert2 metas fuel).2) ∧
    (∀ (fetch : FetchReq → Except String PlaylistItemListResponse)
       (insert : TrackInfo → Except String Unit) (meta : playlistMeta)
       (token : String) (fuel : Nat) (e : String), 0 < fuel →
        fetch (FetchReq.mk meta.ID 50 token) = Except.error e →
        (runPages fetch insert meta token fuel).2 =
          PageOutcome.failed ("error fetching playlist items: " ++ e)) := by
  refine ⟨?_, ?_, ?_, ?_⟩
  · intro insert ti e h
    simp [PostProduct, h]
  · intro insert resp meta
    exact getItemInfo_fst insert resp meta
  · intro fetch insert insert2 metas fuel
    exact getListItemsGo_insert_indep fetch insert insert2 fuel metas ""
  · intro fetch insert meta token fuel e hfuel hf
    cases fuel with
    | zero => exact absurd hfuel (by simp)
    | succ fuel => rw [runPages_succ, hf]

theorem c4_amended_sink_error_swallowed_witness :
    (insertFail (mkTrack metaA itemW) = Except.error "insert failed") ∧
    (PostProduct insertFail (mkTrack metaA itemW) =
      Except.error (" - - - unable to write to DB - - - : " ++ "insert failed")) ∧
    (0 < 1) ∧
    (fetchAllFail (FetchReq.mk "PL0" 50 "") = Except.error "boom") ∧
    ((runPages fetchAllFail insertOk metaW "" 1).2 =
      PageOutcome.failed ("error fetching playlist items: " ++ "boom")) :=
  ⟨rfl,
   c4_amended_sink_error_swallowed.1 insertFail (mkTrack metaA itemW)
     "insert failed" rfl,
   by decide, rfl,
   c4_amended_sink_error_swallowed.2.2.2 fetchAllFail insertOk metaW "" 1 "boom"
     (by decide) rfl⟩

end YPI
